import Mathlib

/-!
Verification of the grid-liquid physics module (phi/physics/gridliquid.py).

The development has two layers:

1. A concrete, executable embedding of the array-level algorithms
   (create_surface_mask, extrapolate, create_binary_mask).  Fields are
   embedded as rank-1 tensors; single-cell "symmetric" padding followed by
   the shifted slice used in the source is embedded as clamped index reads
   (numpy symmetric padding of width one replicates the edge value, so the
   shifted read of the padded array at position j is exactly the read of the
   unpadded array at the clamped position).  Rationals stand in for the
   float entries, so every definition is executable and decidable.

2. A functional model of the orchestration layer (domain cache, pressure
   solve, divergence_free, the stepper).  External collaborators (backend
   ops, the linear solver, geometry queries, advection) are fields of an
   Env record; tensors are lists of rationals.  Python attribute mutation is
   modelled by returning the post-call state next to the result.
-/

namespace Gridliquid

/-- Clamped index into a vector of size n+1: embeds one-cell symmetric
padding followed by a shifted slice. -/
def clampIdx (n : ℕ) (z : ℤ) : Fin (n + 1) :=
  if z < 0 then ⟨0, Nat.succ_pos n⟩
  else if h : z.toNat < n + 1 then ⟨z.toNat, h⟩
  else ⟨n, Nat.lt_succ_self n⟩

/-- create_surface_mask (gridliquid.py lines 234-254), rank-1 instance.
For each axis the source computes max(upper, center) - upper and
max(center, lower) - lower on the symmetric-padded mask and folds the
results with max into a zero accumulator. -/
def create_surface_mask (n : ℕ) (particle_mask : Fin (n + 1) → ℚ) :
    Fin (n + 1) → ℚ := fun j =>
  max (max 0 (max (particle_mask (clampIdx n ((j : ℤ) + 1))) (particle_mask j)
        - particle_mask (clampIdx n ((j : ℤ) + 1))))
    (max (particle_mask j) (particle_mask (clampIdx n ((j : ℤ) - 1)))
        - particle_mask (clampIdx n ((j : ℤ) - 1)))

/-- The sign field -1 * (2 * mask - 1) of extrapolate (line 273). -/
def signsOf (n : ℕ) (particle_mask : Fin (n + 1) → ℚ) : Fin (n + 1) → ℚ :=
  fun j => -1 * (2 * particle_mask j - 1)

/-- One direction d of the relaxation body (lines 317-330), rank-1 instance:
shift field and distance by d with symmetric edge padding, add
dx * sqrt(d.dot(d)) * signs to the shifted distance (for rank 1 the norm
sqrt(d.dot(d)) is |d|), and overwrite field and distance wherever the
candidate distance improves and the sign is nonnegative. -/
def applyDir (n : ℕ) (dx : ℚ) (signs : Fin (n + 1) → ℚ)
    (st : (Fin (n + 1) → ℚ) × (Fin (n + 1) → ℚ)) (d : ℤ) :
    (Fin (n + 1) → ℚ) × (Fin (n + 1) → ℚ) :=
  let d_field := fun j => st.1 (clampIdx n ((j : ℤ) - d))
  let d_dist := fun j => st.2 (clampIdx n ((j : ℤ) - d)) + dx * (d.natAbs : ℚ) * signs j
  (fun j => if |d_dist j| < |st.2 j| ∧ 0 ≤ signs j then d_field j else st.1 j,
   fun j => if |d_dist j| < |st.2 j| ∧ 0 ≤ signs j then d_dist j else st.2 j)

/-- The nonzero offsets of itertools.product((-1,0,1)) for rank 1, in the
order the source loop visits them (the all-zero offset is skipped). -/
def sweepDirections : List ℤ := [-1, 1]

/-- One pass of the outer relaxation loop (lines 312-330): the directions
are processed sequentially, each reading the state left by the previous
one, exactly as the Python loop reassigns ext_field and s_distance. -/
def sweep (n : ℕ) (dx : ℚ) (signs : Fin (n + 1) → ℚ)
    (st : (Fin (n + 1) → ℚ) × (Fin (n + 1) → ℚ)) :
    (Fin (n + 1) → ℚ) × (Fin (n + 1) → ℚ) :=
  sweepDirections.foldl (applyDir n dx signs) st

/-- One direction d of a snapshot-reading sweep: field, distance and the
improvement comparison are all read from the start-of-sweep snapshot st,
while writes land on the accumulator acc (later directions override
earlier ones). -/
def applyDirSnapshot (n : ℕ) (dx : ℚ) (signs : Fin (n + 1) → ℚ)
    (st acc : (Fin (n + 1) → ℚ) × (Fin (n + 1) → ℚ)) (d : ℤ) :
    (Fin (n + 1) → ℚ) × (Fin (n + 1) → ℚ) :=
  let d_field := fun j => st.1 (clampIdx n ((j : ℤ) - d))
  let d_dist := fun j => st.2 (clampIdx n ((j : ℤ) - d)) + dx * (d.natAbs : ℚ) * signs j
  (fun j => if |d_dist j| < |st.2 j| ∧ 0 ≤ signs j then d_field j else acc.1 j,
   fun j => if |d_dist j| < |st.2 j| ∧ 0 ≤ signs j then d_dist j else acc.2 j)

/-- Alternative sweep in which every direction reads field and distance
from the start-of-sweep snapshot st.  This is the semantics the
specification describes; it is compared against the sequential sweep of
the source. -/
def sweepSnapshot (n : ℕ) (dx : ℚ) (signs : Fin (n + 1) → ℚ)
    (st : (Fin (n + 1) → ℚ) × (Fin (n + 1) → ℚ)) :
    (Fin (n + 1) → ℚ) × (Fin (n + 1) → ℚ) :=
  sweepDirections.foldl (applyDirSnapshot n dx signs st) st

/-- extrapolate (gridliquid.py lines 257-337), rank-1 centered-field
instance: copy the input, build the signed pseudo-distance with magnitude
2*(distance+1), zero it at surface cells, then run distance sweeps.
Returns (s_distance, ext_field) like the source. -/
def extrapolate (n : ℕ) (input_field particle_mask : Fin (n + 1) → ℚ)
    (dx : ℚ) (distance : ℕ) :
    (Fin (n + 1) → ℚ) × (Fin (n + 1) → ℚ) :=
  let ext_field := fun j => 1 * input_field j
  let signs := signsOf n particle_mask
  let s_distance := fun j =>
    if 1 ≤ create_surface_mask n particle_mask j then 0
    else -2 * ((distance : ℚ) + 1) * (2 * particle_mask j - 1)
  let final := (sweep n dx signs)^[distance] (ext_field, s_distance)
  (final.2, final.1)

/-- extrapolate with the snapshot-reading sweep of the specification in
place of the sequential sweep of the source. -/
def extrapolateSnapshot (n : ℕ) (input_field particle_mask : Fin (n + 1) → ℚ)
    (dx : ℚ) (distance : ℕ) :
    (Fin (n + 1) → ℚ) × (Fin (n + 1) → ℚ) :=
  let ext_field := fun j => 1 * input_field j
  let signs := signsOf n particle_mask
  let s_distance := fun j =>
    if 1 ≤ create_surface_mask n particle_mask j then 0
    else -2 * ((distance : ℚ) + 1) * (2 * particle_mask j - 1)
  let final := (sweepSnapshot n dx signs)^[distance] (ext_field, s_distance)
  (final.2, final.1)

/-- The marking predicate that the surface-mask code actually computes at a
cell: the cell is occupied and one of its axis neighbors (clamped at the
boundary, matching the symmetric padding) is empty. -/
def innerContour (n : ℕ) (m : Fin (n + 1) → ℚ) (j : Fin (n + 1)) : Prop :=
  m j = 1 ∧ (m (clampIdx n ((j : ℤ) + 1)) = 0 ∨ m (clampIdx n ((j : ℤ) - 1)) = 0)

/-- Concrete rank-1 field [3, 4, 5]. -/
def f345 : Fin 3 → ℚ := fun j => if j.val = 0 then 3 else if j.val = 1 then 4 else 5

/-- Concrete rank-1 mask [1, 1, 0]: fluid in cells 0 and 1. -/
def m110 : Fin 3 → ℚ := fun j => if j.val = 2 then 0 else 1

/-- A concrete rank-1 tensor of five entries, read by cell index. -/
def v5 (a b c d e : ℚ) : Fin 5 → ℚ := fun j =>
  if j.val = 0 then a else if j.val = 1 then b
  else if j.val = 2 then c else if j.val = 3 then d else e

/-- Concrete field [5, 0, 0, 0, 9] for the sweep-order comparison. -/
def f2ex : Fin 5 → ℚ := v5 5 0 0 0 9

/-- Concrete mask [1, 0, 0, 0, 1]: fluid at the two ends. -/
def m2ex : Fin 5 → ℚ := v5 1 0 0 0 1

/-- Concrete rank-1 mask [1, 0]: one fluid cell next to one empty cell. -/
def m10 : Fin 2 → ℚ := fun j => if j.val = 0 then 1 else 0

/-- The reduction math.max(math.abs(field)) over a whole tensor, embedded
as a fold of max over the absolute entries.  The fold is seeded with 0;
since every folded entry is an absolute value, the seed never exceeds the
true maximum of a nonempty tensor. -/
def tensor_max (field : List ℚ) : ℚ := (field.map (fun x => |x|)).foldr max 0

/-- create_binary_mask (gridliquid.py lines 219-231): scale the absolute
field by its maximum unless that maximum is zero (in which case the field
is multiplied by 0 instead, avoiding the division), then apply
ceil(scaled - threshold) entrywise. -/
def create_binary_mask (field : List ℚ) (threshold : ℚ) : List ℚ :=
  (if tensor_max field ≠ 0 then field.map (fun x => |x| / tensor_max field)
   else field.map (fun x => 0 * x)).map (fun x => (⌈x - threshold⌉ : ℚ))

/-- An obstacle: a wrapper around its geometry, which is all this module
consults (gridliquid.py line 23). -/
structure Obstacle (Geo : Type) where
  geometry : Geo
deriving DecidableEq

/-- The simulation domain; only its rank is consulted by this module. -/
structure Domain where
  rank : ℕ
deriving DecidableEq

/-- The domain cache: domain, obstacle-set snapshot, active and accessible
masks.  Masks are centered tensors, embedded as lists of rationals. -/
structure DomainCache (Geo : Type) where
  dom : Domain
  obstacles : List (Obstacle Geo)
  active : List ℚ
  accessible : List ℚ

/-- The grid rank exposed by the cache. -/
def DomainCache.rank {Geo : Type} (c : DomainCache Geo) : ℕ := c.dom.rank

/-- Modelled from the spec: DomainCache.is_valid lives in the external
domain module, not in this source tree; per the specification the cache is
valid exactly when its obstacle-set snapshot still matches the current
obstacle set. -/
def DomainCache.is_valid {Geo : Type} [DecidableEq Geo] (c : DomainCache Geo)
    (obstacles : List (Obstacle Geo)) : Bool := decide (c.obstacles = obstacles)

/-- The liquid state (class GridLiquid, gridliquid.py lines 66-154).
Python mutates attributes of this object in place; the model returns an
updated copy wherever the source mutates. -/
structure GridLiquid (Geo : Type) where
  dom : Domain
  density : List ℚ
  velocity : List ℚ
  gravity : List ℚ
  age : ℚ
  domaincache : Option (DomainCache Geo)
  last_pressure : Option (List ℚ)
  last_pressure_iterations : Option ℕ

/-- A pressure solver: solve(divergence, domaincache, pressure_guess)
returning (pressure, iterations). -/
abbrev Solver (Geo : Type) := List ℚ → DomainCache Geo → Option (List ℚ) → List ℚ × ℕ

/-- An inflow effect: geometry and rate. -/
structure Inflow (Geo : Type) where
  geometry : Geo
  rate : ℚ

/-- The external collaborators of the orchestration layer: geometry
queries on the fixed grid, the backend field operators, the staggered
extrapolation (the multi-rank instance of the extrapolate algorithm,
taking the sweep bound, the field and the occupancy mask), boundary
enforcement, divergence and gradient operators, the default SparseCG
solver and the semi-Lagrangian advection. -/
structure Env (Geo Loc : Type) where
  gridSize : ℕ
  centers : Loc
  valueAt : Geo → Loc → List ℚ
  geometry_mask : List Geo → List ℚ
  extrapolate_ext : ℕ → List ℚ → List ℚ → List ℚ
  with_hard_boundary_conditions : DomainCache Geo → List ℚ → List ℚ
  divergenceS : List ℚ → List ℚ
  divergenceC : List ℚ → List ℚ
  gradient : List ℚ → List ℚ
  sparseCG : Solver Geo
  advect : List ℚ → List ℚ → ℚ → List ℚ
  addForce : List ℚ → List ℚ → List ℚ

/-- domain (gridliquid.py lines 21-29): rebuild the cache when it is
absent or invalid (accessible mask 1 minus the obstacle-union mask, active
mask multiplied into the prior active mask when a prior cache exists),
otherwise return the cached object.  Python assigns state.domaincache, so
the state after that mutation is returned alongside the cache. -/
def domain {Geo Loc : Type} [DecidableEq Geo] (env : Env Geo Loc)
    (state : GridLiquid Geo) (obstacles : List (Obstacle Geo)) :
    GridLiquid Geo × DomainCache Geo :=
  match state.domaincache with
  | none =>
      let mask := (env.geometry_mask (obstacles.map Obstacle.geometry)).map
        (fun x => 1 - x)
      let c : DomainCache Geo := ⟨state.dom, obstacles, mask, mask⟩
      ({state with domaincache := some c}, c)
  | some c0 =>
      if c0.is_valid obstacles then (state, c0)
      else
        let mask := (env.geometry_mask (obstacles.map Obstacle.geometry)).map
          (fun x => 1 - x)
        let c : DomainCache Geo :=
          ⟨state.dom, obstacles, List.zipWith (· * ·) mask c0.active, mask⟩
        ({state with domaincache := some c}, c)

/-- Sum of a nonempty list of equally shaped tensors (the add() of
phi.math used at gridliquid.py line 208); the empty list gives the empty
tensor. -/
def addList (ts : List (List ℚ)) : List ℚ :=
  match ts with
  | [] => []
  | t :: rest => rest.foldl (List.zipWith (· + ·)) t

/-- inflow (gridliquid.py lines 204-208): zeros of the grid shape for an
empty inflow collection, otherwise the sum of geometry values at the cell
centers scaled by the rates. -/
def inflow {Geo Loc : Type} (env : Env Geo Loc) (inflows : List (Inflow Geo)) :
    List ℚ :=
  match inflows with
  | [] => List.replicate env.gridSize 0
  | _ :: _ => addList (inflows.map
      (fun i => (env.valueAt i.geometry env.centers).map (fun v => v * i.rate)))

/-- The run-time type dispatch of solve_pressure: a State, a staggered
velocity grid, or a centered tensor whose last dimension length is
recorded in the constructor. -/
inductive PressureInput (Geo : Type) where
  | state (s : GridLiquid Geo)
  | staggered (v : List ℚ)
  | centered (lastDim : ℕ) (f : List ℚ)

/-- solve_pressure (gridliquid.py lines 158-181): pick the divergence
according to the input kind, raising for a centered field whose last
dimension differs from the cache rank; default the solver to SparseCG
when none is supplied; delegate to solver.solve with a none initial
guess. -/
def solve_pressure {Geo Loc : Type} (env : Env Geo Loc)
    (input_field : PressureInput Geo) (domaincache : DomainCache Geo)
    (pressure_solver : Option (Solver Geo)) : Except String (List ℚ × ℕ) :=
  match (match input_field with
    | .state s => Except.ok (env.divergenceS s.velocity)
    | .staggered v => Except.ok (env.divergenceS v)
    | .centered lastDim f =>
        if lastDim = domaincache.rank then Except.ok (env.divergenceC f)
        else Except.error "Cannot solve pressure") with
  | .error e => Except.error e
  | .ok div => Except.ok ((pressure_solver.getD env.sparseCG) div domaincache none)

/-- divergence_free (gridliquid.py lines 184-201), staggered-velocity
path: extrapolate the velocity two cells outward from the active mask,
apply hard boundary conditions, solve for pressure from that extrapolated
velocity, subtract the pressure gradient from the original velocity,
reapply hard boundary conditions; the optional state records the pressure
diagnostics (the in-place mutation of lines 198-200 becomes the second
component of the result).  The error branch of the match is dead code: a
staggered input never raises. -/
def divergence_free_velocity {Geo Loc : Type} (env : Env Geo Loc)
    (velocity : List ℚ) (domaincache : DomainCache Geo)
    (pressure_solver : Option (Solver Geo)) (state : Option (GridLiquid Geo)) :
    List ℚ × Option (GridLiquid Geo) :=
  let ext_velocity := env.with_hard_boundary_conditions domaincache
    (env.extrapolate_ext 2 velocity domaincache.active)
  match solve_pressure env (.staggered ext_velocity) domaincache pressure_solver with
  | .ok pr =>
      let velocity2 := env.with_hard_boundary_conditions domaincache
        (List.zipWith (· - ·) velocity (env.gradient pr.1))
      (velocity2, state.map (fun s =>
        {s with last_pressure := some pr.1, last_pressure_iterations := some pr.2}))
  | .error _ => (velocity, state)

/-- The two run-time input kinds of divergence_free. -/
inductive DFInput (Geo : Type) where
  | state (s : GridLiquid Geo)
  | staggered (v : List ℚ)

/-- divergence_free (gridliquid.py lines 184-201): a State input is
answered by a copy whose velocity is the projection of the state velocity,
computed by a recursive call that passes neither the supplied solver nor
the state sink (line 187); a staggered input runs the projection. -/
def divergence_free {Geo Loc : Type} (env : Env Geo Loc) (obj : DFInput Geo)
    (domaincache : DomainCache Geo) (pressure_solver : Option (Solver Geo))
    (state : Option (GridLiquid Geo)) : DFInput Geo × Option (GridLiquid Geo) :=
  match obj with
  | .state s =>
      (.state {s with velocity :=
        (divergence_free_velocity env s.velocity domaincache none none).1}, state)
  | .staggered v =>
      let r := divergence_free_velocity env v domaincache pressure_solver state
      (.staggered r.1, r.2)

/-- The makeDivergenceFree pipeline written from the words of section 4.5
of the specification, for comparison with divergence_free_velocity:
extrapolate two cells outward from the active mask, apply hard boundary
conditions, solve pressure on that extrapolated velocity, subtract the
pressure gradient, reapply hard boundary conditions, and record the
diagnostics on the optional sink. -/
def makeDivergenceFree_spec {Geo Loc : Type} (env : Env Geo Loc)
    (velocity : List ℚ) (domaincache : DomainCache Geo)
    (pressure_solver : Option (Solver Geo)) (sink : Option (GridLiquid Geo)) :
    List ℚ × Option (GridLiquid Geo) :=
  let extrapolated := env.with_hard_boundary_conditions domaincache
    (env.extrapolate_ext 2 velocity domaincache.active)
  let result := (pressure_solver.getD env.sparseCG)
    (env.divergenceS extrapolated) domaincache none
  (env.with_hard_boundary_conditions domaincache
      (List.zipWith (· - ·) velocity (env.gradient result.1)),
   sink.map (fun s =>
     {s with last_pressure := some result.1,
             last_pressure_iterations := some result.2}))

/-- The density update of step before advection (gridliquid.py lines
42-43): density plus dt times the injected inflow field. -/
def pre_advection_density {Geo Loc : Type} (env : Env Geo Loc)
    (state : GridLiquid Geo) (dt : ℚ) (inflows : List (Inflow Geo)) : List ℚ :=
  List.zipWith (· + ·) state.density ((inflow env inflows).map (fun x => dt * x))

/-- GridLiquidPhysics.step (gridliquid.py lines 38-60).  The first
component of the result is the input state as Python leaves it after the
in-place mutations (cache rebuild, active-mask overwrite at threshold 0.5,
pressure diagnostics); the second component is the new state built by
copied_with (new density, velocity and age). -/
def step {Geo Loc : Type} [DecidableEq Geo] (env : Env Geo Loc)
    (pressure_solver : Option (Solver Geo)) (state : GridLiquid Geo) (dt : ℚ)
    (obstacles : List (Obstacle Geo)) (inflows : List (Inflow Geo)) :
    GridLiquid Geo × GridLiquid Geo :=
  let dc := domain env state obstacles
  let state1 := dc.1
  let density := pre_advection_density env state1 dt inflows
  let active_mask := create_binary_mask density (1 / 2)
  let cache2 := {dc.2 with active := active_mask}
  let state2 := {state1 with domaincache := some cache2}
  let velocity := env.addForce state2.velocity (state2.gravity.map (fun g => dt * g))
  let dfr := divergence_free_velocity env velocity cache2 pressure_solver (some state2)
  let state3 := dfr.2.getD state2
  let ext_velocity := env.with_hard_boundary_conditions cache2
    (env.extrapolate_ext 30 dfr.1 cache2.active)
  let density2 := env.advect ext_velocity density dt
  let velocity2 := env.advect ext_velocity ext_velocity dt
  (state3, {state3 with density := density2, velocity := velocity2,
                        age := state3.age + dt})

/-- A concrete environment over trivial geometry and location types, used
to instantiate the orchestration theorems on concrete inputs. -/
def trivEnv : Env ℕ ℕ where
  gridSize := 1
  centers := 0
  valueAt := fun _ _ => [1]
  geometry_mask := fun _ => [0]
  extrapolate_ext := fun _ v _ => v
  with_hard_boundary_conditions := fun _ v => v
  divergenceS := fun v => v
  divergenceC := fun v => v
  gradient := fun p => p
  sparseCG := fun d _ _ => (d, 7)
  advect := fun _ f _ => f
  addForce := fun v _ => v

/-- A concrete cache with an empty obstacle snapshot. -/
def trivCache : DomainCache ℕ := ⟨⟨2⟩, [], [1], [1]⟩

/-- A concrete state with no prior cache and no recorded diagnostics. -/
def trivState : GridLiquid ℕ := ⟨⟨2⟩, [1], [0], [0, -1], 0, none, none, none⟩

/-- The concrete state trivState equipped with the cache trivCache. -/
def trivStateCached : GridLiquid ℕ :=
  ⟨⟨2⟩, [1], [0], [0, -1], 0, some trivCache, none, none⟩

theorem applyDir_preserves_neg_sign (n : ℕ) (dx : ℚ) (signs : Fin (n + 1) → ℚ)
    (st : (Fin (n + 1) → ℚ) × (Fin (n + 1) → ℚ)) (d : ℤ) (j : Fin (n + 1))
    (h : signs j < 0) :
    (applyDir n dx signs st d).1 j = st.1 j ∧
    (applyDir n dx signs st d).2 j = st.2 j := by
  constructor <;> simp [applyDir, not_le.mpr h]

theorem sweep_eq_seq (n : ℕ) (dx : ℚ) (signs : Fin (n + 1) → ℚ)
    (st : (Fin (n + 1) → ℚ) × (Fin (n + 1) → ℚ)) :
    sweep n dx signs st = applyDir n dx signs (applyDir n dx signs st (-1)) 1 := rfl

theorem sweep_preserves_neg_sign (n : ℕ) (dx : ℚ) (signs : Fin (n + 1) → ℚ)
    (st : (Fin (n + 1) → ℚ) × (Fin (n + 1) → ℚ)) (j : Fin (n + 1))
    (h : signs j < 0) :
    (sweep n dx signs st).1 j = st.1 j ∧ (sweep n dx signs st).2 j = st.2 j := by
  rw [sweep_eq_seq]
  have h1 := applyDir_preserves_neg_sign n dx signs st (-1) j h
  have h2 := applyDir_preserves_neg_sign n dx signs (applyDir n dx signs st (-1)) 1 j h
  exact ⟨h2.1.trans h1.1, h2.2.trans h1.2⟩

theorem iterate_sweep_preserves_neg_sign (n : ℕ) (dx : ℚ) (signs : Fin (n + 1) → ℚ)
    (k : ℕ) (st : (Fin (n + 1) → ℚ) × (Fin (n + 1) → ℚ)) (j : Fin (n + 1))
    (h : signs j < 0) :
    ((sweep n dx signs)^[k] st).1 j = st.1 j ∧
    ((sweep n dx signs)^[k] st).2 j = st.2 j := by
  induction k generalizing st with
  | zero => exact ⟨rfl, rfl⟩
  | succ k ih =>
    rw [Function.iterate_succ_apply]
    have hs := sweep_preserves_neg_sign n dx signs st j h
    exact ⟨(ih _).1.trans hs.1, (ih _).2.trans hs.2⟩

/-- C1: at every cell where the sign value -(2*mask-1) is negative, the
extrapolated output field equals the input field, and any number k of
additional relaxation sweeps applied to the final (field, distance) state
still leaves the field value equal to the input value. -/
theorem extrapolate_never_overwrites_interior (n : ℕ)
    (input_field particle_mask : Fin (n + 1) → ℚ) (dx : ℚ) (distance k : ℕ)
    (j : Fin (n + 1)) (h : signsOf n particle_mask j < 0) :
    (extrapolate n input_field particle_mask dx distance).2 j = input_field j ∧
    ((sweep n dx (signsOf n particle_mask))^[k]
        ((extrapolate n input_field particle_mask dx distance).2,
         (extrapolate n input_field particle_mask dx distance).1)).1 j
      = input_field j := by
  have base : (extrapolate n input_field particle_mask dx distance).2 j = input_field j := by
    have hi := (iterate_sweep_preserves_neg_sign n dx (signsOf n particle_mask) distance
      ((fun j => 1 * input_field j),
       (fun j => if 1 ≤ create_surface_mask n particle_mask j then 0
                 else -2 * ((distance : ℚ) + 1) * (2 * particle_mask j - 1))) j h).1
    calc (extrapolate n input_field particle_mask dx distance).2 j
        = 1 * input_field j := hi
      _ = input_field j := one_mul _
  refine ⟨base, ?_⟩
  have h2 := (iterate_sweep_preserves_neg_sign n dx (signsOf n particle_mask) k
    ((extrapolate n input_field particle_mask dx distance).2,
     (extrapolate n input_field particle_mask dx distance).1) j h).1
  exact h2.trans base

/-- Witness for C1 at a concrete interior-fluid cell. -/
theorem extrapolate_never_overwrites_interior_witness :
    (extrapolate 2 f345 m110 1 2).2 0 = f345 0 ∧
    ((sweep 2 1 (signsOf 2 m110))^[1]
        ((extrapolate 2 f345 m110 1 2).2,
         (extrapolate 2 f345 m110 1 2).1)).1 0 = f345 0 :=
  extrapolate_never_overwrites_interior 2 f345 m110 1 2 1 0
    (by norm_num [signsOf, m110])

theorem iterate_two {α : Type} (f : α → α) (x : α) : f^[2] x = f (f x) := rfl

theorem sgn_eval : signsOf 4 m2ex = v5 (-1) 1 1 1 (-1) := by
  funext j
  fin_cases j <;> norm_num [signsOf, m2ex, v5]

theorem init_eval :
    ((fun j => 1 * f2ex j : Fin 5 → ℚ),
     (fun j => if 1 ≤ create_surface_mask 4 m2ex j then (0 : ℚ)
               else -2 * (((2 : ℕ) : ℚ) + 1) * (2 * m2ex j - 1)))
      = (v5 5 0 0 0 9, v5 0 6 6 6 0) := by
  rw [Prod.ext_iff]
  constructor <;> funext j <;> fin_cases j <;>
    simp +decide [create_surface_mask, clampIdx, m2ex, f2ex, v5] <;> norm_num

theorem stepA_eval :
    applyDir 4 1 (v5 (-1) 1 1 1 (-1)) (v5 5 0 0 0 9, v5 0 6 6 6 0) (-1)
      = (v5 5 0 0 9 9, v5 0 6 6 1 0) := by
  rw [Prod.ext_iff]
  constructor <;> funext j <;> fin_cases j <;>
    norm_num [applyDir, clampIdx, v5, Int.toNat_ofNat]

theorem stepB_eval :
    applyDir 4 1 (v5 (-1) 1 1 1 (-1)) (v5 5 0 0 9 9, v5 0 6 6 1 0) 1
      = (v5 5 5 0 9 9, v5 0 1 6 1 0) := by
  rw [Prod.ext_iff]
  constructor <;> funext j <;> fin_cases j <;>
    norm_num [applyDir, clampIdx, v5, Int.toNat_ofNat]

theorem stepC_eval :
    applyDir 4 1 (v5 (-1) 1 1 1 (-1)) (v5 5 5 0 9 9, v5 0 1 6 1 0) (-1)
      = (v5 5 5 9 9 9, v5 0 1 2 1 0) := by
  rw [Prod.ext_iff]
  constructor <;> funext j <;> fin_cases j <;>
    norm_num [applyDir, clampIdx, v5, Int.toNat_ofNat]

theorem stepD_eval :
    applyDir 4 1 (v5 (-1) 1 1 1 (-1)) (v5 5 5 9 9 9, v5 0 1 2 1 0) 1
      = (v5 5 5 9 9 9, v5 0 1 2 1 0) := by
  rw [Prod.ext_iff]
  constructor <;> funext j <;> fin_cases j <;>
    norm_num [applyDir, clampIdx, v5, Int.toNat_ofNat]

theorem snapA1_eval :
    applyDirSnapshot 4 1 (v5 (-1) 1 1 1 (-1)) (v5 5 0 0 0 9, v5 0 6 6 6 0)
      (v5 5 0 0 0 9, v5 0 6 6 6 0) (-1) = (v5 5 0 0 9 9, v5 0 6 6 1 0) := by
  rw [Prod.ext_iff]
  constructor <;> funext j <;> fin_cases j <;>
    norm_num [applyDirSnapshot, clampIdx, v5, Int.toNat_ofNat]

theorem snapA2_eval :
    applyDirSnapshot 4 1 (v5 (-1) 1 1 1 (-1)) (v5 5 0 0 0 9, v5 0 6 6 6 0)
      (v5 5 0 0 9 9, v5 0 6 6 1 0) 1 = (v5 5 5 0 9 9, v5 0 1 6 1 0) := by
  rw [Prod.ext_iff]
  constructor <;> funext j <;> fin_cases j <;>
    norm_num [applyDirSnapshot, clampIdx, v5, Int.toNat_ofNat]

theorem snapB1_eval :
    applyDirSnapshot 4 1 (v5 (-1) 1 1 1 (-1)) (v5 5 5 0 9 9, v5 0 1 6 1 0)
      (v5 5 5 0 9 9, v5 0 1 6 1 0) (-1) = (v5 5 5 9 9 9, v5 0 1 2 1 0) := by
  rw [Prod.ext_iff]
  constructor <;> funext j <;> fin_cases j <;>
    norm_num [applyDirSnapshot, clampIdx, v5, Int.toNat_ofNat]

theorem snapB2_eval :
    applyDirSnapshot 4 1 (v5 (-1) 1 1 1 (-1)) (v5 5 5 0 9 9, v5 0 1 6 1 0)
      (v5 5 5 9 9 9, v5 0 1 2 1 0) 1 = (v5 5 5 5 9 9, v5 0 1 2 1 0) := by
  rw [Prod.ext_iff]
  constructor <;> funext j <;> fin_cases j <;>
    norm_num [applyDirSnapshot, clampIdx, v5, Int.toNat_ofNat]

theorem snapshot_sweep_eq_seq (n : ℕ) (dx : ℚ) (signs : Fin (n + 1) → ℚ)
    (st : (Fin (n + 1) → ℚ) × (Fin (n + 1) → ℚ)) :
    sweepSnapshot n dx signs st
      = applyDirSnapshot n dx signs st (applyDirSnapshot n dx signs st st (-1)) 1 := rfl

theorem c2_seq_eval : (extrapolate 4 f2ex m2ex 1 2).2 = v5 5 5 9 9 9 := by
  calc (extrapolate 4 f2ex m2ex 1 2).2
      = ((sweep 4 1 (signsOf 4 m2ex))^[2]
          ((fun j => 1 * f2ex j),
           (fun j => if 1 ≤ create_surface_mask 4 m2ex j then (0 : ℚ)
                     else -2 * (((2 : ℕ) : ℚ) + 1) * (2 * m2ex j - 1)))).1 := rfl
    _ = v5 5 5 9 9 9 := by
        rw [sgn_eval, iterate_two, init_eval, sweep_eq_seq, sweep_eq_seq, stepA_eval,
          stepB_eval, stepC_eval, stepD_eval]

theorem c2_snap_eval : (extrapolateSnapshot 4 f2ex m2ex 1 2).2 = v5 5 5 5 9 9 := by
  calc (extrapolateSnapshot 4 f2ex m2ex 1 2).2
      = ((sweepSnapshot 4 1 (signsOf 4 m2ex))^[2]
          ((fun j => 1 * f2ex j),
           (fun j => if 1 ≤ create_surface_mask 4 m2ex j then (0 : ℚ)
                     else -2 * (((2 : ℕ) : ℚ) + 1) * (2 * m2ex j - 1)))).1 := rfl
    _ = v5 5 5 5 9 9 := by
        rw [sgn_eval, iterate_two, init_eval, snapshot_sweep_eq_seq, snapshot_sweep_eq_seq,
          snapA1_eval, snapA2_eval, snapB1_eval, snapB2_eval]

/-- C2 (amended): within one sweep the nonzero offsets are applied
sequentially in the product order, each offset reading the field and
distance values as already updated by the earlier offsets of the same
sweep; on the concrete input below (mask [1,0,0,0,1], field [5,0,0,0,9],
dx 1, two sweeps) this differs from the semantics in which all offsets
read the start-of-sweep snapshot. -/
theorem sweep_offsets_read_sequentially :
    (∀ (n : ℕ) (dx : ℚ) (signs : Fin (n + 1) → ℚ)
        (st : (Fin (n + 1) → ℚ) × (Fin (n + 1) → ℚ)),
        sweep n dx signs st = applyDir n dx signs (applyDir n dx signs st (-1)) 1) ∧
    (extrapolate 4 f2ex m2ex 1 2).2 ⟨2, by omega⟩ = 9 ∧
    (extrapolateSnapshot 4 f2ex m2ex 1 2).2 ⟨2, by omega⟩ = 5 :=
  ⟨fun _ _ _ _ => rfl,
   by rw [c2_seq_eval]; norm_num [v5],
   by rw [c2_snap_eval]; norm_num [v5]⟩

/-- C2 counterexample: on the mask [1,0,0,0,1] with field [5,0,0,0,9],
dx = 1 and two sweeps, the extrapolated value of cell 2 under the code
(sequential reads, value 9) differs from the value under shared
start-of-sweep snapshot reads (value 5). -/
theorem sweep_snapshot_read_counterexample :
    (extrapolate 4 f2ex m2ex 1 2).2 ⟨2, by omega⟩ ≠
    (extrapolateSnapshot 4 f2ex m2ex 1 2).2 ⟨2, by omega⟩ := by
  rw [c2_seq_eval, c2_snap_eval]
  norm_num [v5]

/-- C3 (amended): on a binary mask, create_surface_mask outputs 1 exactly
at occupied cells having an empty axis neighbor (the inner contour of the
fluid); empty cells are never marked. -/
theorem create_surface_mask_inner_contour (n : ℕ) (m : Fin (n + 1) → ℚ)
    (hb : ∀ j, m j = 0 ∨ m j = 1) (j : Fin (n + 1)) :
    (create_surface_mask n m j = 1 ↔ innerContour n m j) ∧
    (m j = 0 → create_surface_mask n m j = 0) := by
  simp only [create_surface_mask, innerContour]
  rcases hb j with h | h <;>
    rcases hb (clampIdx n ((j : ℤ) + 1)) with hu | hu <;>
      rcases hb (clampIdx n ((j : ℤ) - 1)) with hl | hl <;>
        rw [h, hu, hl] <;> norm_num

/-- Witness for C3 (amended) at a concrete occupied surface cell. -/
theorem create_surface_mask_inner_contour_witness :
    (create_surface_mask 1 m10 0 = 1 ↔ innerContour 1 m10 0) ∧
    (m10 0 = 0 → create_surface_mask 1 m10 0 = 0) :=
  create_surface_mask_inner_contour 1 m10
    (by intro j; fin_cases j <;> norm_num [m10]) 0

/-- C3 counterexample: in the mask [1, 0] the cell 1 is empty and its axis
neighbor cell 0 is occupied, yet create_surface_mask does not mark it. -/
theorem create_surface_mask_counterexample :
    m10 1 = 0 ∧ m10 0 = 1 ∧ create_surface_mask 1 m10 1 = 0 := by
  refine ⟨by norm_num [m10], by norm_num [m10], ?_⟩
  norm_num [create_surface_mask, clampIdx, m10, Int.toNat_ofNat]

theorem tensor_max_nonneg (field : List ℚ) : 0 ≤ tensor_max field := by
  unfold tensor_max
  induction field with
  | nil => exact le_refl 0
  | cons a l ih => exact le_trans ih (le_max_right _ _)

theorem abs_le_tensor_max (field : List ℚ) (y : ℚ) (hy : y ∈ field) :
    |y| ≤ tensor_max field := by
  unfold tensor_max at *
  induction field with
  | nil => cases hy
  | cons a l ih =>
    rcases List.mem_cons.mp hy with h | h
    · subst h; exact le_max_left _ _
    · exact le_trans (ih h) (le_max_right _ _)

theorem tensor_max_of_all_zero (field : List ℚ) (hz : ∀ y ∈ field, y = 0) :
    tensor_max field = 0 := by
  unfold tensor_max
  induction field with
  | nil => rfl
  | cons a l ih =>
    have ha : a = 0 := hz a (List.mem_cons_self a l)
    have hl : (l.map (fun x => |x|)).foldr max 0 = 0 :=
      ih (fun y hy => hz y (List.mem_cons_of_mem a hy))
    simp [ha, hl]

/-- C4 (amended): for every threshold strictly between 0 and 1 each entry
of create_binary_mask is exactly 0 or 1, and an all-zero field produces an
all-zero output (the zero maximum selects the branch that multiplies by 0
instead of dividing). -/
theorem create_binary_mask_binary_output (field : List ℚ) (t : ℚ)
    (h0 : 0 < t) (h1 : t < 1) :
    (∀ x ∈ create_binary_mask field t, x = 0 ∨ x = 1) ∧
    ((∀ y ∈ field, y = 0) → ∀ x ∈ create_binary_mask field t, x = 0) := by
  have hzero_entry : ∀ y : ℚ, (⌈0 * y - t⌉ : ℚ) = 0 := by
    intro y
    have : ⌈(0 : ℚ) * y - t⌉ = 0 := by
      rw [zero_mul, zero_sub]
      rw [Int.ceil_eq_zero_iff]
      constructor
      · simpa using h1
      · simpa using h0.le
    rw [this]
    norm_num
  have hdeg : tensor_max field = 0 →
      ∀ x ∈ create_binary_mask field t, x = 0 := by
    intro hf x hx
    rw [create_binary_mask, if_neg (fun hc => hc hf)] at hx
    rcases List.mem_map.mp hx with ⟨a, ha, rfl⟩
    rcases List.mem_map.mp ha with ⟨y, _, rfl⟩
    exact hzero_entry y
  constructor
  · intro x hx
    by_cases hf : tensor_max field = 0
    · exact Or.inl (hdeg hf x hx)
    · have hpos : 0 < tensor_max field :=
        lt_of_le_of_ne (tensor_max_nonneg field) (Ne.symm hf)
      rw [create_binary_mask, if_pos hf] at hx
      rcases List.mem_map.mp hx with ⟨a, ha, rfl⟩
      rcases List.mem_map.mp ha with ⟨y, hy, rfl⟩
      have hub : |y| / tensor_max field ≤ 1 :=
        (div_le_one hpos).mpr (abs_le_tensor_max field y hy)
      have hlb : 0 ≤ |y| / tensor_max field := div_nonneg (abs_nonneg y) hpos.le
      rcases le_or_lt (|y| / tensor_max field - t) 0 with hle | hgt
      · left
        have : ⌈|y| / tensor_max field - t⌉ = 0 := by
          rw [Int.ceil_eq_zero_iff]
          exact ⟨by linarith, hle⟩
        rw [this]; norm_num
      · right
        have : ⌈|y| / tensor_max field - t⌉ = 1 := by
          rw [Int.ceil_eq_iff]
          constructor
          · push_cast; linarith
          · push_cast; linarith
        rw [this]; norm_num
  · intro hz
    exact hdeg (tensor_max_of_all_zero field hz)

/-- Witness for C4 (amended) at threshold 1/2 on the field [0, 5]. -/
theorem create_binary_mask_binary_output_witness :
    (∀ x ∈ create_binary_mask [0, 5] (1 / 2), x = 0 ∨ x = 1) ∧
    ((∀ y ∈ ([0, 5] : List ℚ), y = 0) →
      ∀ x ∈ create_binary_mask [0, 5] (1 / 2), x = 0) :=
  create_binary_mask_binary_output [0, 5] (1 / 2) (by norm_num) (by norm_num)

/-- C4 counterexample: at threshold 1, which lies in the claimed interval
(0, 1], the input [0, 5] produces the entry -1, which is neither 0 nor 1
(the zero entry scales to 0 and ceil(0 - 1) = -1). -/
theorem create_binary_mask_counterexample :
    create_binary_mask [0, 5] 1 = [-1, 0] ∧ ¬((-1 : ℚ) = 0 ∨ (-1 : ℚ) = 1) := by
  constructor
  · have hm : tensor_max [0, 5] = 5 := by
      norm_num [tensor_max]
    rw [create_binary_mask, if_pos (by rw [hm]; norm_num)]
    simp only [hm, List.map_cons, List.map_nil]
    norm_num [Int.ceil_neg]
  · norm_num

/-- C5: divergence_free on a staggered velocity performs exactly the
specification pipeline in order (extrapolate two cells outward from the
active mask, hard boundary conditions, pressure solve on the extrapolated
velocity, pressure-gradient subtraction, hard boundary conditions again,
diagnostics recorded on the sink), and supplying a diagnostics sink never
changes the returned velocity. -/
theorem divergence_free_pipeline {Geo Loc : Type} (env : Env Geo Loc)
    (v : List ℚ) (c : DomainCache Geo) (so : Option (Solver Geo))
    (s : GridLiquid Geo) :
    (∀ sink, divergence_free_velocity env v c so sink
        = makeDivergenceFree_spec env v c so sink) ∧
    (divergence_free_velocity env v c so (some s)).1
      = (divergence_free_velocity env v c so none).1 :=
  ⟨fun _ => rfl, rfl⟩

/-- C6: solve_pressure accepts a staggered velocity, a centered field
whose last dimension equals the cache rank, or a whole state, delegating
to the solver with a none initial guess and returning its result; a
centered field of any other last dimension raises, and no other input
raises. -/
theorem solve_pressure_dispatch {Geo Loc : Type} (env : Env Geo Loc)
    (c : DomainCache Geo) (so : Option (Solver Geo)) (v f : List ℚ) (ld : ℕ)
    (s : GridLiquid Geo) :
    solve_pressure env (.staggered v) c so
      = Except.ok ((so.getD env.sparseCG) (env.divergenceS v) c none) ∧
    (ld = c.rank → solve_pressure env (.centered ld f) c so
      = Except.ok ((so.getD env.sparseCG) (env.divergenceC f) c none)) ∧
    (ld ≠ c.rank → solve_pressure env (.centered ld f) c so
      = Except.error "Cannot solve pressure") ∧
    solve_pressure env (.state s) c so
      = Except.ok ((so.getD env.sparseCG) (env.divergenceS s.velocity) c none) := by
  refine ⟨rfl, ?_, ?_, rfl⟩
  · intro h
    simp [solve_pressure, h]
  · intro h
    simp [solve_pressure, h]

/-- Witness for C6 on the trivial environment: a centered field of
matching rank 2 is accepted, one of rank 3 raises. -/
theorem solve_pressure_dispatch_witness :
    solve_pressure trivEnv (.centered 2 [3]) trivCache none
      = Except.ok ([3], 7) ∧
    solve_pressure trivEnv (.centered 3 [3]) trivCache none
      = Except.error "Cannot solve pressure" :=
  ⟨(solve_pressure_dispatch trivEnv trivCache none [] [3] 2 trivState).2.1 rfl,
   (solve_pressure_dispatch trivEnv trivCache none [] [3] 3 trivState).2.2.1
     (by decide)⟩

/-- C7: the accessible mask is recomputed as 1 minus the obstacle-union
mask exactly when the cache is absent or its obstacle snapshot no longer
matches (otherwise the cached object is returned unchanged); on recompute
the active mask is accessible times the prior active mask when a prior
cache exists and accessible otherwise; and every step overwrites the
cache active mask with the binary mask (threshold 1/2) of the new density,
whatever the obstacle set did. -/
theorem domain_cache_recompute_policy {Geo Loc : Type} [DecidableEq Geo]
    (env : Env Geo Loc) (s : GridLiquid Geo) (obstacles : List (Obstacle Geo))
    (c0 : DomainCache Geo) (ps : Option (Solver Geo)) (dt : ℚ)
    (inflows : List (Inflow Geo)) :
    (s.domaincache = some c0 → c0.is_valid obstacles = true →
      domain env s obstacles = (s, c0)) ∧
    (s.domaincache = none →
      (domain env s obstacles).2.accessible
          = (env.geometry_mask (obstacles.map Obstacle.geometry)).map
              (fun x => 1 - x) ∧
      (domain env s obstacles).2.active
          = (env.geometry_mask (obstacles.map Obstacle.geometry)).map
              (fun x => 1 - x)) ∧
    (s.domaincache = some c0 → c0.is_valid obstacles = false →
      (domain env s obstacles).2.accessible
          = (env.geometry_mask (obstacles.map Obstacle.geometry)).map
              (fun x => 1 - x) ∧
      (domain env s obstacles).2.active
          = List.zipWith (· * ·)
              ((env.geometry_mask (obstacles.map Obstacle.geometry)).map
                (fun x => 1 - x)) c0.active) ∧
    ((step env ps s dt obstacles inflows).1.domaincache).map DomainCache.active
        = some (create_binary_mask
            (pre_advection_density env (domain env s obstacles).1 dt inflows)
            (1 / 2)) := by
  refine ⟨?_, ?_, ?_, ?_⟩
  · intro h hv
    simp [domain, h, hv]
  · intro h
    simp [domain, h]
  · intro h hv
    simp [domain, h, hv]
  · simp [step, divergence_free_velocity, solve_pressure]

/-- Witness for C7: with a matching empty obstacle snapshot the cache
object is reused; with no prior cache both masks are the recomputed
mask. -/
theorem domain_cache_recompute_policy_witness :
    domain trivEnv trivStateCached [] = (trivStateCached, trivCache) ∧
    ((domain trivEnv trivState []).2.accessible
        = (trivEnv.geometry_mask []).map (fun x => 1 - x) ∧
     (domain trivEnv trivState []).2.active
        = (trivEnv.geometry_mask []).map (fun x => 1 - x)) :=
  ⟨(domain_cache_recompute_policy trivEnv trivStateCached [] trivCache none 1
      []).1 rfl (by decide),
   (domain_cache_recompute_policy trivEnv trivState [] trivCache none 1
      []).2.1 rfl⟩

theorem getD_replicate_lt (n k : ℕ) (x : ℚ) (hk : k < n) :
    (List.replicate n x).getD k 0 = x := by
  induction n generalizing k with
  | zero => cases hk
  | succ n ih =>
    cases k with
    | zero => rfl
    | succ k =>
      rw [List.replicate_succ, List.getD_cons_succ]
      exact ih k (Nat.lt_of_succ_lt_succ hk)

theorem zipAdd_getD (a b : List ℚ) (k : ℕ) (ha : k < a.length)
    (hb : k < b.length) :
    (List.zipWith (· + ·) a b).getD k 0 = a.getD k 0 + b.getD k 0 := by
  induction a generalizing b k with
  | nil => cases ha
  | cons x xs ih =>
    cases b with
    | nil => cases hb
    | cons y ys =>
      cases k with
      | zero => rfl
      | succ k =>
        simp only [List.zipWith_cons_cons, List.getD_cons_succ]
        exact ih ys k (Nat.lt_of_succ_lt_succ ha) (Nat.lt_of_succ_lt_succ hb)

theorem getD_map_zero (f : ℚ → ℚ) (hf : f 0 = 0) (l : List ℚ) (k : ℕ) :
    (l.map f).getD k 0 = f (l.getD k 0) := by
  induction l generalizing k with
  | nil => simp [hf]
  | cons a t ih =>
    cases k with
    | zero => rfl
    | succ k =>
      rw [List.map_cons, List.getD_cons_succ, List.getD_cons_succ]
      exact ih k

theorem foldl_zipAdd_getD (ts : List (List ℚ)) (acc : List ℚ) (n k : ℕ)
    (hacc : acc.length = n) (hts : ∀ t ∈ ts, t.length = n) (hk : k < n) :
    (ts.foldl (List.zipWith (· + ·)) acc).getD k 0
      = acc.getD k 0 + (ts.map (fun t => t.getD k 0)).sum := by
  induction ts generalizing acc with
  | nil => simp
  | cons t rest ih =>
    have hlen : (List.zipWith (· + ·) acc t).length = n := by
      rw [List.length_zipWith, hacc, hts t (List.mem_cons_self t rest)]
      exact Nat.min_self n
    rw [List.foldl_cons,
      ih (List.zipWith (· + ·) acc t) hlen
        (fun u hu => hts u (List.mem_cons_of_mem t hu)),
      zipAdd_getD acc t k (hacc ▸ hk)
        ((hts t (List.mem_cons_self t rest)) ▸ hk)]
    rw [List.map_cons, List.sum_cons]
    ring

theorem inflow_getD {Geo Loc : Type} (env : Env Geo Loc)
    (inflows : List (Inflow Geo)) (k : ℕ) (hk : k < env.gridSize)
    (hlen : ∀ i ∈ inflows,
      (env.valueAt i.geometry env.centers).length = env.gridSize) :
    (inflow env inflows).getD k 0
      = (inflows.map
          (fun i => (env.valueAt i.geometry env.centers).getD k 0 * i.rate)).sum := by
  cases inflows with
  | nil =>
    rw [List.map_nil, List.sum_nil]
    exact getD_replicate_lt env.gridSize k 0 hk
  | cons i rest =>
    have hterm : ∀ a : Inflow Geo, a ∈ i :: rest →
        ((env.valueAt a.geometry env.centers).map (fun v => v * a.rate)).length
          = env.gridSize := by
      intro a ha
      rw [List.length_map]
      exact hlen a ha
    show (addList ((i :: rest).map
        (fun a => (env.valueAt a.geometry env.centers).map (fun v => v * a.rate)))).getD k 0 = _
    rw [List.map_cons, addList,
      foldl_zipAdd_getD _ _ env.gridSize k
        (hterm i (List.mem_cons_self i rest))
        (by
          intro u hu
          rcases List.mem_map.mp hu with ⟨a, ha, rfl⟩
          exact hterm a (List.mem_cons_of_mem i ha)) hk]
    rw [List.map_map]
    have hmap : ∀ (l : List (Inflow Geo)), (∀ a ∈ l,
          (env.valueAt a.geometry env.centers).length = env.gridSize) →
        l.map ((fun t => t.getD k 0) ∘
          (fun a => (env.valueAt a.geometry env.centers).map (fun v => v * a.rate)))
          = l.map (fun a => (env.valueAt a.geometry env.centers).getD k 0 * a.rate) := by
      intro l hl
      induction l with
      | nil => rfl
      | cons b bs ihb =>
        rw [List.map_cons, List.map_cons,
          ihb (fun a ha => hl a (List.mem_cons_of_mem b ha))]
        congr 1
        show ((env.valueAt b.geometry env.centers).map (fun v => v * b.rate)).getD k 0 = _
        rw [getD_map_zero (fun v => v * b.rate) (zero_mul b.rate)]
    rw [hmap rest (fun a ha => hlen a (List.mem_cons_of_mem i ha))]
    rw [List.map_cons, List.sum_cons]
    congr 1
    rw [getD_map_zero (fun v => v * i.rate) (zero_mul i.rate)]

/-- C8: entrywise, the pre-advection density is the input density plus dt
times the sum over inflows of geometry value at the cell centers times
rate; and an empty inflow collection yields exactly the all-zero tensor of
the grid shape. -/
theorem step_inflow_density {Geo Loc : Type} (env : Env Geo Loc)
    (s : GridLiquid Geo) (dt : ℚ) (inflows : List (Inflow Geo)) (k : ℕ)
    (hk : k < env.gridSize) (hd : s.density.length = env.gridSize)
    (hlen : ∀ i ∈ inflows,
      (env.valueAt i.geometry env.centers).length = env.gridSize) :
    (pre_advection_density env s dt inflows).getD k 0
      = s.density.getD k 0
        + dt * (inflows.map
            (fun i => (env.valueAt i.geometry env.centers).getD k 0 * i.rate)).sum ∧
    inflow env ([] : List (Inflow Geo)) = List.replicate env.gridSize 0 := by
  refine ⟨?_, rfl⟩
  have hinfl : (inflow env inflows).length = env.gridSize := by
    cases inflows with
    | nil => exact List.length_replicate env.gridSize 0
    | cons i rest =>
      show (addList ((i :: rest).map
          (fun a => (env.valueAt a.geometry env.centers).map (fun v => v * a.rate)))).length = _
      rw [List.map_cons, addList]
      have base : ((env.valueAt i.geometry env.centers).map
          (fun v => v * i.rate)).length = env.gridSize := by
        rw [List.length_map]
        exact hlen i (List.mem_cons_self i rest)
      have : ∀ (ts : List (List ℚ)) (acc : List ℚ),
          acc.length = env.gridSize → (∀ t ∈ ts, t.length = env.gridSize) →
          (ts.foldl (List.zipWith (· + ·)) acc).length = env.gridSize := by
        intro ts
        induction ts with
        | nil => intro acc ha _; exact ha
        | cons t rest2 ih =>
          intro acc ha hts
          rw [List.foldl_cons]
          exact ih _
            (by rw [List.length_zipWith, ha, hts t (List.mem_cons_self t rest2)]
                exact Nat.min_self _)
            (fun u hu => hts u (List.mem_cons_of_mem t hu))
      exact this _ _ base (by
        intro u hu
        rcases List.mem_map.mp hu with ⟨a, ha, rfl⟩
        rw [List.length_map]
        exact hlen a (List.mem_cons_of_mem i ha))
  rw [pre_advection_density,
    zipAdd_getD s.density ((inflow env inflows).map (fun x => dt * x)) k
      (hd ▸ hk) (by rw [List.length_map, hinfl]; exact hk),
    getD_map_zero (fun x => dt * x) (mul_zero dt),
    inflow_getD env inflows k hk hlen]

/-- Witness for C8 on the trivial environment with one inflow of rate 3
and dt 5. -/
theorem step_inflow_density_witness :
    (pre_advection_density trivEnv trivState 5 [⟨0, 3⟩]).getD 0 0
      = trivState.density.getD 0 0
        + 5 * (([⟨0, 3⟩] : List (Inflow ℕ)).map
            (fun i => (trivEnv.valueAt i.geometry trivEnv.centers).getD 0 0
              * i.rate)).sum ∧
    inflow trivEnv ([] : List (Inflow ℕ)) = List.replicate trivEnv.gridSize 0 :=
  step_inflow_density trivEnv trivState 5 [⟨0, 3⟩] 0 (by decide) (by decide)
    (fun _ _ => rfl)

theorem step_sets_diagnostics {Geo Loc : Type} [DecidableEq Geo]
    (env : Env Geo Loc) (ps : Option (Solver Geo)) (s : GridLiquid Geo)
    (dt : ℚ) (obstacles : List (Obstacle Geo)) (inflows : List (Inflow Geo)) :
    ∃ p it, (step env ps s dt obstacles inflows).1.last_pressure = some p ∧
      (step env ps s dt obstacles inflows).1.last_pressure_iterations = some it :=
  ⟨_, _, rfl, rfl⟩

/-- C9 (amended): a stepper tick returns a fresh state carrying the new
density, velocity and incremented age, and it leaves the input state
density, velocity, gravity, age and domain untouched; but the input state
is mutated in place: its domain cache ends up holding the overwritten
active mask (binary mask of the new density at threshold 1/2) and its last
pressure and iteration diagnostics are set. -/
theorem step_mutation_profile {Geo Loc : Type} [DecidableEq Geo]
    (env : Env Geo Loc) (ps : Option (Solver Geo)) (s : GridLiquid Geo)
    (dt : ℚ) (obstacles : List (Obstacle Geo)) (inflows : List (Inflow Geo)) :
    (step env ps s dt obstacles inflows).1.density = s.density ∧
    (step env ps s dt obstacles inflows).1.velocity = s.velocity ∧
    (step env ps s dt obstacles inflows).1.gravity = s.gravity ∧
    (step env ps s dt obstacles inflows).1.age = s.age ∧
    (step env ps s dt obstacles inflows).1.dom = s.dom ∧
    (∃ c, (step env ps s dt obstacles inflows).1.domaincache = some c ∧
      c.active = create_binary_mask
        (pre_advection_density env (domain env s obstacles).1 dt inflows)
        (1 / 2)) ∧
    (∃ p it, (step env ps s dt obstacles inflows).1.last_pressure = some p ∧
      (step env ps s dt obstacles inflows).1.last_pressure_iterations = some it) ∧
    (step env ps s dt obstacles inflows).2.age = s.age + dt ∧
    (step env ps s dt obstacles inflows).2.domaincache
      = (step env ps s dt obstacles inflows).1.domaincache := by
  have hdom : (domain env s obstacles).1.density = s.density ∧
      (domain env s obstacles).1.velocity = s.velocity ∧
      (domain env s obstacles).1.gravity = s.gravity ∧
      (domain env s obstacles).1.age = s.age ∧
      (domain env s obstacles).1.dom = s.dom := by
    unfold domain
    cases h : s.domaincache with
    | none => simp
    | some c0 =>
      by_cases hv : c0.is_valid obstacles <;> simp [hv]
  refine ⟨?_, ?_, ?_, ?_, ?_, ⟨_, rfl, rfl⟩, step_sets_diagnostics env ps s dt
    obstacles inflows, ?_, ?_⟩ <;>
    simp [step, divergence_free_velocity, solve_pressure, hdom.1, hdom.2.1,
      hdom.2.2.1, hdom.2.2.2.1, hdom.2.2.2.2]

/-- C9 counterexample: stepping a concrete state mutates the state object
passed in: the post-call input state has a recorded last pressure while
the original had none, so the input state was not left intact. -/
theorem step_mutates_input_state :
    (step trivEnv none trivState 1 [] []).1 ≠ trivState := by
  intro h
  obtain ⟨p, it, hp, _⟩ := step_sets_diagnostics trivEnv none trivState 1 [] []
  have h2 := congrArg GridLiquid.last_pressure h
  rw [hp] at h2
  simp [trivState] at h2

/-- C10: divergence_free on a State input recurses on the state velocity
passing neither the supplied solver nor the state sink: the result equals
the pipeline run with the default SparseCG solver and no sink, whatever
solver is supplied, and the supplied sink is returned with no diagnostics
recorded on it. -/
theorem divergence_free_state_input_defaults {Geo Loc : Type}
    (env : Env Geo Loc) (s : GridLiquid Geo) (c : DomainCache Geo)
    (so1 so2 : Option (Solver Geo)) (sink : Option (GridLiquid Geo)) :
    divergence_free env (.state s) c so1 sink
      = (.state {s with velocity :=
          (divergence_free_velocity env s.velocity c (some env.sparseCG) none).1},
         sink) ∧
    divergence_free env (.state s) c so1 sink
      = divergence_free env (.state s) c so2 sink :=
  ⟨rfl, rfl⟩

end Gridliquid
